import Mathlib

set_option maxRecDepth 10000

/-!
Verification of the Alaska Snow Department request-processing pipeline
(`Challenge_V/alaska_snow_agent`): a shallow embedding of the orchestrator
(`app/core_engine.py`), the safety gate (`app/safety_validator.py`), the
RAG response generator (`app/response_generator.py`) and the offline
quality evaluator (`evaluation/response_evaluator.py`), together with
theorems about the pipeline result invariants, the error taxonomy, the
prompt composer and the fluency / semantic-similarity scoring.
-/

/-- Python-style whitespace: the characters stripped by `str.strip()` and
matched by the regex whitespace class on ASCII text. -/
def isPyWs (c : Char) : Bool :=
  c = ' ' || c = '\t' || c = '\n' || c = '\r' || c = '\x0b' || c = '\x0c'

/-- Embedding of Python `str.strip()`: remove leading and trailing whitespace. -/
def pyStrip (s : String) : String :=
  String.mk (((s.data.dropWhile isPyWs).reverse.dropWhile isPyWs).reverse)

/-- Embedding of Python `str.upper()` on ASCII text. -/
def pyUpper (s : String) : String := String.mk (s.data.map Char.toUpper)

/-- Embedding of Python `str.lower()` on ASCII text. -/
def pyLower (s : String) : String := String.mk (s.data.map Char.toLower)

/-- The exception taxonomy of `utils/exceptions.py` as observed by the
orchestrator: the three classified exception types, plus `other` for any
exception outside the taxonomy (Python `Exception`). -/
inductive PyExc where
  | safetyValidation (msg : String)
  | ragRetrieval (msg : String)
  | responseGeneration (msg : String)
  | other (msg : String)
  deriving DecidableEq

/-- The result dictionary built by `AlaskaSnowAgent.process_user_request`
(`core_engine.py`, lines 44-52); `request_id` is an opaque identifier and is
omitted. -/
structure PipelineResult where
  user_input : String
  response : String
  success : Bool
  error : Option String
  safety_passed : Bool
  context_retrieved : Bool
  deriving DecidableEq

/-- `AlaskaSnowAgent.default_error_message` (`core_engine.py`, lines 22-25). -/
def default_error_message : String :=
  "I apologize, but I\x27m experiencing technical difficulties. " ++
  "Please contact the Alaska Snow Department directly for assistance."

/-- `AlaskaSnowAgent.safety_blocked_message` (`core_engine.py`, lines 26-29). -/
def safety_blocked_message : String :=
  "I\x27m sorry, but your message was flagged by our safety filters. " ++
  "Please rephrase your question and try again."

/-- The initial result dictionary of `process_user_request` before the `try`
block runs (`core_engine.py`, lines 44-52). -/
def initResult (user_input : String) : PipelineResult :=
  { user_input := user_input, response := "", success := false, error := none,
    safety_passed := false, context_retrieved := false }

/-- The `except` clauses of `process_user_request` (`core_engine.py`,
lines 72-85), applied to the result dictionary as it stood when the
exception was raised. -/
def handleExc (r : PipelineResult) (e : PyExc) : PipelineResult :=
  match e with
  | .safetyValidation m => { r with response := safety_blocked_message, error := some m }
  | .ragRetrieval m => { r with response := default_error_message, error := some m }
  | .responseGeneration m => { r with response := default_error_message, error := some m }
  | .other m =>
    { r with response := default_error_message, error := some ("Unexpected error: " ++ m) }

/-- `AlaskaSnowAgent.process_user_request` (`core_engine.py`, lines 31-87).
The two outbound calls are abstracted by their outcomes: `safety` is the
outcome of `safety_validator.validate_prompt_safety(user_input)` and `gen`
the outcome of `response_generator.generate_assistant_response(user_input)`;
an `Except.error` outcome models the call raising the given exception. -/
def process_user_request (safety : Except PyExc Bool) (gen : Except PyExc String)
    (user_input : String) : PipelineResult :=
  match safety with
  | .error e => handleExc (initResult user_input) e
  | .ok false =>
    { initResult user_input with
        response := safety_blocked_message, error := some "Safety validation failed" }
  | .ok true =>
    match gen with
    | .error e => handleExc { initResult user_input with safety_passed := true } e
    | .ok text =>
      { initResult user_input with
          safety_passed := true, response := text, context_retrieved := true,
          success := true }

/-- `SafetyValidator.safety_prompt_template` with the `{prompt}` placeholder
substituted, as produced by `str.format` (`safety_validator.py`, lines 17-24
and 44). -/
def safety_prompt_template (prompt : String) : String :=
  "You are a content safety classifier for the Alaska Snow Department. " ++
  "Respond only with \x27SAFE\x27 or \x27UNSAFE\x27. No explanation needed. " ++
  "Mark prompts containing hate speech, violence, illegal activities, " ++
  "harmful content, misleading information, or policy violations as \x27UNSAFE\x27. " ++
  "Snow department related queries should generally be \x27SAFE\x27.\n\n" ++
  "Prompt: " ++ prompt ++ "\nClassification:"

/-- `SafetyValidator.validate_prompt_safety` (`safety_validator.py`,
lines 26-61). `classify` abstracts `self.model.generate_content` followed by
reading `response.text`; an `Except.error` outcome models that call raising.
The second component of the returned pair counts how many classification
calls were issued (instrumentation of the embedding; the source issues one
call per pass through the `try` block). -/
def validate_prompt_safety (classify : String → Except String String)
    (prompt : String) : Except PyExc Bool × Nat :=
  if pyStrip prompt = "" then (.ok false, 0)
  else
    match classify (safety_prompt_template prompt) with
    | .error e => (.error (.safetyValidation ("Safety validation error: " ++ e)), 1)
    | .ok text =>
      let classLabel := pyUpper (pyStrip text)
      if classLabel = "SAFE" then (.ok true, 1)
      else if classLabel = "UNSAFE" then (.ok false, 1)
      else (.ok false, 1)

/-- A row of the context DataFrame returned by
`ResponseGenerator.retrieve_relevant_context` (`response_generator.py`,
lines 53-98). -/
structure RetrievedEntry where
  question : String
  answer : String
  distance : ℚ
  deriving DecidableEq

/-- One `Q:/A:` context section of `build_context_prompt`
(`response_generator.py`, line 121). -/
def qa_block (e : RetrievedEntry) : String :=
  "Q: " ++ e.question ++ "\nA: " ++ e.answer

/-- `ResponseGenerator.build_context_prompt` (`response_generator.py`,
lines 100-131). -/
def build_context_prompt (user_input : String) (context : List RetrievedEntry) : String :=
  if context.isEmpty then
    "No specific FAQ information found for this query. User question: " ++
    user_input ++
    "\n\nPlease provide a helpful response directing them to contact the Alaska Snow Department directly."
  else
    "Based on the following Alaska Snow Department FAQ information, please answer the user\x27s question:\n\n=== CONTEXT ===\n" ++
    String.intercalate "\n\n" (context.map qa_block) ++
    "\n\n=== USER QUESTION ===\n" ++ user_input ++
    "\n\nPlease provide a helpful, accurate response based on the context above."

/-- `ResponseGenerator.generate_assistant_response` (`response_generator.py`,
lines 133-167). `retrieval` abstracts the outcome of the underlying BigQuery
call inside `retrieve_relevant_context` (which wraps any failure in
`RAGRetrievalError("Failed to retrieve context: " + msg)`, re-raised as-is by
the outer handler); `model` abstracts `self.chat_model.generate_content`
followed by reading `response.text`. The source checks `not response.text`,
which is true only for the empty string; the resulting
`ResponseGenerationError` is caught by the outer `except Exception` handler
and re-wrapped with the `"Failed to generate response: "` message, as is any
other model-call exception. -/
def generate_assistant_response (retrieval : Except String (List RetrievedEntry))
    (model : String → Except String String) (user_input : String) :
    Except PyExc String :=
  match retrieval with
  | .error e => .error (.ragRetrieval ("Failed to retrieve context: " ++ e))
  | .ok context =>
    match model (build_context_prompt user_input context) with
    | .error e => .error (.responseGeneration ("Failed to generate response: " ++ e))
    | .ok text =>
      if text = "" then
        .error (.responseGeneration "Failed to generate response: Model returned empty response")
      else .ok (pyStrip text)

/-- A word character of the regex word class on ASCII text
(`response_evaluator.py`, line 46). -/
def isWordChar (c : Char) : Bool := c.isAlphanum || c = '_'

/-- Collects the maximal runs of word characters of a character list; `acc`
holds the current run reversed. Together with `pyLower`, this embeds the
regex findall over word runs used by `ResponseEvaluator.tokenize_words`. -/
def wordRunsAux : List Char → List Char → List (List Char)
  | [], acc => if acc.isEmpty then [] else [acc.reverse]
  | c :: cs, acc =>
    if isWordChar c then wordRunsAux cs (c :: acc)
    else if acc.isEmpty then wordRunsAux cs []
    else acc.reverse :: wordRunsAux cs []

/-- `ResponseEvaluator.tokenize_words` (`response_evaluator.py`, lines 36-46):
the maximal word-character runs of the lower-cased text. -/
def tokenize_words (text : String) : List String :=
  (wordRunsAux (pyLower text).data []).map String.mk

/-- A sentence-terminating punctuation character (`response_evaluator.py`,
line 33). -/
def isSentEnd (c : Char) : Bool := c = '.' || c = '!' || c = '?'

/-- An upper-case ASCII letter, the lookahead class of the sentence-splitting
regex (`response_evaluator.py`, line 33). -/
def isUpperAZ (c : Char) : Bool := 'A' ≤ c && c ≤ 'Z'

/-- Embeds the regex split of `ResponseEvaluator.split_into_sentences`: the
split pattern matches a maximal whitespace run whose preceding character is
sentence-ending punctuation and whose following character is an upper-case
letter. `acc` holds the current part reversed; when a split fires, the
trailing whitespace of the run stays in the next part and is removed by the
per-part strip in `split_into_sentences`, matching the regex semantics after
stripping. -/
def splitSentAux : List Char → List Char → List (List Char)
  | [], acc => [acc.reverse]
  | c :: cs, acc =>
    if isPyWs c
        && (match acc with | p :: _ => isSentEnd p | [] => false)
        && (match cs.dropWhile isPyWs with | d :: _ => isUpperAZ d | [] => false) then
      acc.reverse :: splitSentAux cs []
    else
      splitSentAux cs (c :: acc)

/-- `ResponseEvaluator.split_into_sentences` (`response_evaluator.py`,
lines 22-34): regex split of the stripped text at sentence boundaries, then
strip each part and drop empty parts. -/
def split_into_sentences (text : String) : List String :=
  ((splitSentAux (pyStrip text).data []).map (fun l => pyStrip (String.mk l))).filter
    (fun s => s != "")

/-- The score-adjustment arithmetic of the fluency heuristic: start at 5.0,
subtract 1.5 if the average sentence length is below 5, else subtract 1.0 if
it exceeds 25; then subtract 1.0 if the word variety is below 0.5, else add
0.5 if it exceeds 0.8 (`response_evaluator.py`, lines 71-84). -/
def fluencyAdjust (avg_sentence_length word_variety : ℚ) : ℚ :=
  let score1 : ℚ :=
    if avg_sentence_length < 5 then 5 - 3/2
    else if avg_sentence_length > 25 then 5 - 1
    else 5
  if word_variety < 1/2 then score1 - 1
  else if word_variety > 4/5 then score1 + 1/2
  else score1

/-- `ResponseEvaluator.compute_fluency_score` (`response_evaluator.py`,
lines 48-87). Real arithmetic is modelled over ℚ. -/
def compute_fluency_score (text : String) : ℚ :=
  if pyStrip text = "" then 1
  else
    let sentences := split_into_sentences text
    let words := tokenize_words text
    if sentences.isEmpty || words.isEmpty then 1
    else
      let avg_sentence_length : ℚ := (words.length : ℚ) / (sentences.length : ℚ)
      let word_variety : ℚ := (words.dedup.length : ℚ) / (words.length : ℚ)
      max 1 (min 5 (fluencyAdjust avg_sentence_length word_variety))

/-- Round-half-to-even on ℚ, the rounding rule of Python `round`. -/
def roundHalfToEven (q : ℚ) : ℤ :=
  let n := ⌊q⌋
  let frac := q - n
  if frac < 1/2 then n
  else if 1/2 < frac then n + 1
  else if n % 2 = 0 then n
  else n + 1

/-- Python `round(q, 2)` over ℚ. -/
def pyRound2 (q : ℚ) : ℚ := (roundHalfToEven (q * 100) : ℚ) / 100

/-- `ResponseEvaluator.compute_semantic_similarity` (`response_evaluator.py`,
lines 89-111). `embed` abstracts the embedding computation up to and
including the cosine similarity of the two sentence embeddings: `some c`
models the cosine value `c`, `none` models the computation raising (the
`except` branch returning `0.0`). The source returns `round(c * 5, 2)` with
no clamping. -/
def compute_semantic_similarity (embed : Option ℚ) : ℚ :=
  match embed with
  | some c => pyRound2 (c * 5)
  | none => 0

/-- C1: `process_user_request` always returns a structured `PipelineResult`
(it is a total function of the outcomes of its two outbound calls), and any
exception outside the `SafetyValidationError` / `RAGRetrievalError` /
`ResponseGenerationError` taxonomy — whether raised during the safety phase
or the generation phase — is caught at the outermost boundary and mapped to
the generic technical-difficulty message with `success = false` and
`error = "Unexpected error: " ++ message`. -/
theorem C1_unexpected_fault_boundary (gen : Except PyExc String) (msg input : String) :
    process_user_request (.error (.other msg)) gen input =
      { user_input := input, response := default_error_message, success := false,
        error := some ("Unexpected error: " ++ msg), safety_passed := false,
        context_retrieved := false } ∧
    process_user_request (.ok true) (.error (.other msg)) input =
      { user_input := input, response := default_error_message, success := false,
        error := some ("Unexpected error: " ++ msg), safety_passed := true,
        context_retrieved := false } :=
  ⟨rfl, rfl⟩

/-- C2: for every input and every behaviour of the safety validator and the
generator, the returned `PipelineResult` satisfies: `success = true` implies
`error = none` and `safety_passed = true`; and `safety_passed = false`
implies `success = false`. -/
theorem C2_result_invariant (safety : Except PyExc Bool) (gen : Except PyExc String)
    (input : String) :
    ((process_user_request safety gen input).success = true →
      (process_user_request safety gen input).error = none ∧
      (process_user_request safety gen input).safety_passed = true) ∧
    ((process_user_request safety gen input).safety_passed = false →
      (process_user_request safety gen input).success = false) := by
  rcases safety with e | b
  · cases e <;> simp [process_user_request, handleExc, initResult]
  · cases b
    · simp [process_user_request, initResult]
    · rcases gen with e | t
      · cases e <;> simp [process_user_request, handleExc, initResult]
      · simp [process_user_request, initResult]

/-- Witness for C2 at a concrete blocked request: the safety gate returned
`false`, so `safety_passed = false` and, by the invariant, `success = false`. -/
theorem C2_result_invariant_witness :
    (process_user_request (.ok false) (.ok "x") "q").safety_passed = false ∧
    (process_user_request (.ok false) (.ok "x") "q").success = false :=
  ⟨rfl, (C2_result_invariant (.ok false) (.ok "x") "q").2 rfl⟩

/-- C4: policy rejections and infrastructure faults stay distinguishable via
`safety_passed`: a `SafetyValidationError` from the safety gate yields the
blocked-style message with `error` the exception text and
`safety_passed = false`; a `RAGRetrievalError` or `ResponseGenerationError`
from the post-safety phase yields the generic technical-difficulty message
with `success = false`, `error` the exception text, and `safety_passed`
still `true`. -/
theorem C4_rejection_vs_fault (gen : Except PyExc String) (m input : String) :
    process_user_request (.error (.safetyValidation m)) gen input =
      { user_input := input, response := safety_blocked_message, success := false,
        error := some m, safety_passed := false, context_retrieved := false } ∧
    process_user_request (.ok true) (.error (.ragRetrieval m)) input =
      { user_input := input, response := default_error_message, success := false,
        error := some m, safety_passed := true, context_retrieved := false } ∧
    process_user_request (.ok true) (.error (.responseGeneration m)) input =
      { user_input := input, response := default_error_message, success := false,
        error := some m, safety_passed := true, context_retrieved := false } :=
  ⟨rfl, rfl, rfl⟩

/-- C10: in every result of `process_user_request`, `context_retrieved`
equals `success` (the flag is only set on the full success path); in
particular, when retrieval succeeds but the model call fails — so
`generate_assistant_response` raises `ResponseGenerationError` after context
retrieval already succeeded — the result still reports
`context_retrieved = false`. -/
theorem C10_context_retrieved_iff_success (safety : Except PyExc Bool)
    (gen : Except PyExc String) (context : List RetrievedEntry) (input emsg : String) :
    (process_user_request safety gen input).context_retrieved =
      (process_user_request safety gen input).success ∧
    (process_user_request (.ok true)
        (generate_assistant_response (.ok context) (fun _ => .error emsg) input)
        input).context_retrieved = false := by
  constructor
  · rcases safety with e | b
    · cases e <;> rfl
    · cases b
      · rfl
      · rcases gen with e | t
        · cases e <;> rfl
        · rfl
  · rfl

/-- C3: the safety gate returns `false` immediately on empty or
whitespace-only prompts without invoking the classifier (call count 0);
otherwise it issues exactly one classification call, and when that call
returns text, the gate returns `true` if and only if the text, trimmed and
upper-cased, equals `"SAFE"` — every other output, `"UNSAFE"` included,
yields `false`. -/
theorem C3_safety_gate (classify : String → Except String String) (prompt : String) :
    (pyStrip prompt = "" →
      validate_prompt_safety classify prompt = (.ok false, 0)) ∧
    (pyStrip prompt ≠ "" →
      (validate_prompt_safety classify prompt).2 = 1 ∧
      ∀ text, classify (safety_prompt_template prompt) = .ok text →
        (validate_prompt_safety classify prompt).1 =
          .ok (decide (pyUpper (pyStrip text) = "SAFE"))) := by
  constructor
  · intro h
    simp [validate_prompt_safety, h]
  · intro h
    constructor
    · unfold validate_prompt_safety
      rw [if_neg h]
      rcases classify (safety_prompt_template prompt) with e | t
      · rfl
      · by_cases h1 : pyUpper (pyStrip t) = "SAFE"
        · simp [h1]
        · by_cases h2 : pyUpper (pyStrip t) = "UNSAFE" <;> simp [h1, h2]
    · intro text htext
      unfold validate_prompt_safety
      rw [if_neg h, htext]
      by_cases hs : pyUpper (pyStrip text) = "SAFE"
      · simp [hs]
      · by_cases h2 : pyUpper (pyStrip text) = "UNSAFE" <;> simp [hs, h2]

/-- Witness for C3 at concrete inputs: a whitespace-only prompt is rejected
with no classifier call, and a non-empty prompt with classifier output
`" safe\n"` (trimmed and upper-cased: `"SAFE"`) passes. -/
theorem C3_safety_gate_witness :
    validate_prompt_safety (fun _ => .ok " safe\n") "  " = (.ok false, 0) ∧
    (validate_prompt_safety (fun _ => .ok " safe\n") "hello").1 = .ok true := by
  refine ⟨(C3_safety_gate (fun _ => .ok " safe\n") "  ").1 (by decide), ?_⟩
  have h := ((C3_safety_gate (fun _ => .ok " safe\n") "hello").2 (by decide)).2
    " safe\n" rfl
  rw [h]
  exact congrArg Except.ok (by decide)

/-- C5: `build_context_prompt` is a pure two-branch function. On an empty
entry list it returns the fallback template (which embeds the verbatim user
question); on a non-empty list it renders each entry as a `Q:/A:` block,
joins the blocks with a blank-line separator, wraps them in the labeled
CONTEXT section, and appends the labeled USER QUESTION section with the
verbatim user input and the instruction to answer from the context. -/
theorem C5_prompt_composer (user_input : String) (context : List RetrievedEntry) :
    (context = [] →
      build_context_prompt user_input context =
        "No specific FAQ information found for this query. User question: " ++
        user_input ++
        "\n\nPlease provide a helpful response directing them to contact the Alaska Snow Department directly." ∧
      ∃ pre post, build_context_prompt user_input context = pre ++ user_input ++ post) ∧
    (context ≠ [] →
      build_context_prompt user_input context =
        "Based on the following Alaska Snow Department FAQ information, please answer the user\x27s question:\n\n=== CONTEXT ===\n" ++
        String.intercalate "\n\n" (context.map qa_block) ++
        "\n\n=== USER QUESTION ===\n" ++ user_input ++
        "\n\nPlease provide a helpful, accurate response based on the context above.") := by
  constructor
  · rintro rfl
    exact ⟨rfl,
      "No specific FAQ information found for this query. User question: ",
      "\n\nPlease provide a helpful response directing them to contact the Alaska Snow Department directly.",
      rfl⟩
  · intro h
    rcases context with _ | ⟨e, rest⟩
    · exact absurd rfl h
    · rfl

/-- Witness for C5 at concrete inputs: the empty-context fallback and a
one-entry context prompt. -/
theorem C5_prompt_composer_witness :
    build_context_prompt "When will my road be plowed?" [] =
      "No specific FAQ information found for this query. User question: " ++
      "When will my road be plowed?" ++
      "\n\nPlease provide a helpful response directing them to contact the Alaska Snow Department directly." ∧
    build_context_prompt "When will my road be plowed?"
        [{ question := "Q1", answer := "A1", distance := 0 }] =
      "Based on the following Alaska Snow Department FAQ information, please answer the user\x27s question:\n\n=== CONTEXT ===\n" ++
      String.intercalate "\n\n"
        ([{ question := "Q1", answer := "A1", distance := 0 }].map qa_block) ++
      "\n\n=== USER QUESTION ===\n" ++ "When will my road be plowed?" ++
      "\n\nPlease provide a helpful, accurate response based on the context above." :=
  ⟨((C5_prompt_composer "When will my road be plowed?" []).1 rfl).1,
    (C5_prompt_composer "When will my road be plowed?"
      [{ question := "Q1", answer := "A1", distance := 0 }]).2
      (List.cons_ne_nil _ _)⟩

/-- C6 counterexample: when the model returns the whitespace-only text
`"   "`, `generate_assistant_response` does not raise
`ResponseGenerationError` — the source only checks `not response.text`,
which is false for `"   "` — and instead returns the trimmed text, the
empty string. -/
theorem C6_counterexample :
    generate_assistant_response (.ok []) (fun _ => .ok "   ") "q" = Except.ok "" :=
  rfl

/-- C6 amended: `generate_assistant_response` raises
`ResponseGenerationError` when the model call errors or returns the empty
string, raises `RAGRetrievalError` when retrieval fails, and returns the
model text trimmed when that text is non-empty — for whitespace-only text
this is the empty string, returned without error. -/
theorem C6_generator_contract (context : List RetrievedEntry)
    (input text emsg rmsg : String) :
    generate_assistant_response (.error rmsg) (fun _ => .ok text) input =
      .error (.ragRetrieval ("Failed to retrieve context: " ++ rmsg)) ∧
    generate_assistant_response (.ok context) (fun _ => .error emsg) input =
      .error (.responseGeneration ("Failed to generate response: " ++ emsg)) ∧
    generate_assistant_response (.ok context) (fun _ => .ok "") input =
      .error (.responseGeneration "Failed to generate response: Model returned empty response") ∧
    (text ≠ "" →
      generate_assistant_response (.ok context) (fun _ => .ok text) input =
        .ok (pyStrip text)) := by
  refine ⟨rfl, rfl, rfl, fun h => ?_⟩
  simp [generate_assistant_response, h]

/-- Witness for C6 at a concrete non-empty model output, returned trimmed. -/
theorem C6_generator_contract_witness :
    " hello " ≠ "" ∧
    generate_assistant_response (.ok []) (fun _ => .ok " hello ") "q" =
      .ok (pyStrip " hello ") :=
  ⟨by decide, (C6_generator_contract [] "q" " hello " "" "").2.2.2 (by decide)⟩

/-- Helper: under non-degenerate conditions the fluency score equals the
adjusted and clamped formula over the sentence and word counts. -/
theorem fluency_score_formula (text : String) (h0 : pyStrip text ≠ "")
    (hA : (split_into_sentences text).isEmpty = false)
    (hB : (tokenize_words text).isEmpty = false) :
    compute_fluency_score text =
      max 1 (min 5 (fluencyAdjust
        (((tokenize_words text).length : ℚ) /
          ((split_into_sentences text).length : ℚ))
        (((tokenize_words text).dedup.length : ℚ) /
          ((tokenize_words text).length : ℚ)))) := by
  simp [compute_fluency_score, h0, hA, hB]

/-- C7: `compute_fluency_score` yields `1.0` on empty or whitespace-only
text and on text with no sentences or no words; otherwise it starts at
`5.0`, applies the average-sentence-length and word-variety adjustments of
`fluencyAdjust`, and clamps to `[1.0, 5.0]`; the result always lies in
`[1.0, 5.0]`. -/
theorem C7_fluency_algorithm (text : String) :
    (1 ≤ compute_fluency_score text ∧ compute_fluency_score text ≤ 5) ∧
    (pyStrip text = "" → compute_fluency_score text = 1) ∧
    (split_into_sentences text = [] ∨ tokenize_words text = [] →
      compute_fluency_score text = 1) ∧
    (split_into_sentences text ≠ [] → tokenize_words text ≠ [] →
      compute_fluency_score text =
        max 1 (min 5 (fluencyAdjust
          (((tokenize_words text).length : ℚ) /
            ((split_into_sentences text).length : ℚ))
          (((tokenize_words text).dedup.length : ℚ) /
            ((tokenize_words text).length : ℚ))))) := by
  have hbounds : ∀ q : ℚ, 1 ≤ max 1 (min 5 q) ∧ max 1 (min 5 q) ≤ 5 := fun q =>
    ⟨le_max_left _ _, max_le (by norm_num) (min_le_left _ _)⟩
  by_cases h0 : pyStrip text = ""
  · have hval : compute_fluency_score text = 1 := by simp [compute_fluency_score, h0]
    have hsent : split_into_sentences text = [] := by
      unfold split_into_sentences
      rw [h0]
      rfl
    exact ⟨⟨le_of_eq hval.symm, le_of_eq_of_le hval (by norm_num)⟩, fun _ => hval,
      fun _ => hval, fun hne _ => absurd hsent hne⟩
  · by_cases h1 : split_into_sentences text = [] ∨ tokenize_words text = []
    · have hval : compute_fluency_score text = 1 := by
        rcases h1 with h | h <;> simp [compute_fluency_score, h0, h]
      exact ⟨⟨le_of_eq hval.symm, le_of_eq_of_le hval (by norm_num)⟩, fun _ => hval,
        fun _ => hval,
        fun hne hnw => h1.elim (fun h => absurd h hne) (fun h => absurd h hnw)⟩
    · have hA : split_into_sentences text ≠ [] := fun h => h1 (Or.inl h)
      have hB : tokenize_words text ≠ [] := fun h => h1 (Or.inr h)
      have hA2 : (split_into_sentences text).isEmpty = false := by
        cases hsplit : split_into_sentences text with
        | nil => exact absurd hsplit hA
        | cons a l => rfl
      have hB2 : (tokenize_words text).isEmpty = false := by
        cases hw : tokenize_words text with
        | nil => exact absurd hw hB
        | cons a l => rfl
      have hval := fluency_score_formula text h0 hA2 hB2
      exact ⟨⟨le_of_le_of_eq (hbounds _).1 hval.symm,
          le_of_eq_of_le hval (hbounds _).2⟩,
        fun hc => absurd hc h0,
        fun hc => hc.elim (fun h => absurd h hA) (fun h => absurd h hB),
        fun _ _ => hval⟩

/-- Witness for C7 at the concrete text `"Hello world."`: one sentence, two
distinct words, so the adjustment and clamp branch applies. -/
theorem C7_fluency_algorithm_witness :
    split_into_sentences "Hello world." ≠ [] ∧ tokenize_words "Hello world." ≠ [] ∧
    compute_fluency_score "Hello world." =
      max 1 (min 5 (fluencyAdjust
        (((tokenize_words "Hello world.").length : ℚ) /
          ((split_into_sentences "Hello world.").length : ℚ))
        (((tokenize_words "Hello world.").dedup.length : ℚ) /
          ((tokenize_words "Hello world.").length : ℚ)))) :=
  ⟨by decide, by decide,
    (C7_fluency_algorithm "Hello world.").2.2.2 (by decide) (by decide)⟩

/-- C8: evaluating the fluency heuristic at the text
`"Snow. Department. Services. Available."` yields `4.0`, not a value at or
below `3.0`: the four one-word sentences trigger the short-sentence penalty
(`5.0 - 1.5 = 3.5`), but full word variety then adds the `0.5` bonus. The
repository's own test (`tests/test_core_engine.py`, lines 118-121) asserts
the score is at most `3.0`, which this evaluation contradicts. -/
theorem C8_short_sentence_fluency_value :
    compute_fluency_score "Snow. Department. Services. Available." = 4 ∧
    3 < compute_fluency_score "Snow. Department. Services. Available." := by
  have hsent : split_into_sentences "Snow. Department. Services. Available." =
      ["Snow.", "Department.", "Services.", "Available."] := by decide
  have hw : tokenize_words "Snow. Department. Services. Available." =
      ["snow", "department", "services", "available"] := by decide
  have hd : (["snow", "department", "services", "available"] : List String).dedup =
      ["snow", "department", "services", "available"] := by decide
  have h := fluency_score_formula "Snow. Department. Services. Available."
    (by decide) (by decide) (by decide)
  rw [hsent, hw, hd] at h
  norm_num [fluencyAdjust, max_def, min_def] at h
  exact ⟨h, by rw [h]; norm_num⟩

/-- C9: evaluating `compute_semantic_similarity` on behaviours the embedding
model can produce: a cosine of `-0.2` yields `-1.0`, a negative value
outside the `[0, 5]` range documented for the function (the source multiplies
by 5 and rounds but never clamps), while an embedding failure yields `0.0`
and a cosine of `0.467` yields the rescaled rounded value `2.34`. -/
theorem C9_similarity_unclamped_value :
    compute_semantic_similarity (some (-1/5)) = -1 ∧
    compute_semantic_similarity (some (-1/5)) < 0 ∧
    compute_semantic_similarity none = 0 ∧
    compute_semantic_similarity (some (467/1000)) = 117/50 := by
  have h1 : compute_semantic_similarity (some (-1/5)) = -1 := by
    norm_num [compute_semantic_similarity, pyRound2, roundHalfToEven]
  have h2 : compute_semantic_similarity (some (467/1000)) = 117/50 := by
    norm_num [compute_semantic_similarity, pyRound2, roundHalfToEven]
  exact ⟨h1, by rw [h1]; norm_num, rfl, h2⟩
